import Mathlib

/-!
Verification of the contract risk-assessment engine.

This file gives a shallow embedding, in Lean 4, of the clause extraction and
scoring engine of the repository (files `code/scoring_algorithm.py` and
`code/risk_assessor.py`, plus the questionnaire scoring path of
`code/interactive_assessment.py`), and proves or refutes the
specification's claims about it.

Modelling conventions:
* Python floats are modelled as exact rationals (`ℚ`).  Python's
  `round(x, n)` is modelled as rounding `x * 10^n` to the nearest integer
  (Mathlib's `round`, which rounds halves up, whereas Python rounds halves
  to even; no statement below depends on the tie convention, and both sides
  of every equation use the same rounding function).
* Python strings are modelled as `String` / `List Char`; `sub in s` is
  substring containment, `s.lower()` lower-cases ASCII letters, `s.strip()`
  trims the ASCII whitespace characters.  The regular-expression split of
  `_split_into_sections` is implemented directly with Python `re` semantics
  (leftmost match, alternatives tried in order, greedy repetition with
  backtracking) for the one concrete pattern the source uses.
* Python dicts with a fixed key set (clause records, category details,
  result payloads) are structures; a key that is present in some branches
  and absent in others becomes an `Option` field.  Insertion-ordered dicts
  used as tables become association lists in the source's insertion order.
-/

/-! ## String primitives -/

/-- Lower-case a single ASCII character, as Python `str.lower` does on
ASCII input. -/
def lowerChar (c : Char) : Char :=
  if 'A' ≤ c ∧ c ≤ 'Z' then Char.ofNat (c.toNat + 32) else c

/-- Python `str.lower` on ASCII text. -/
def lowerStr (s : String) : String :=
  String.mk (s.toList.map lowerChar)

/-- Does `sub` occur as a prefix of `hay`? -/
def beginsWith : List Char → List Char → Bool
  | [], _ => true
  | _ :: _, [] => false
  | a :: as, b :: bs => a == b && beginsWith as bs

/-- Does `sub` occur as a contiguous substring of the list?  (Python
`sub in hay`; the empty string occurs in everything.) -/
def listContainsSub (sub : List Char) : List Char → Bool
  | [] => sub.isEmpty
  | c :: rest => beginsWith sub (c :: rest) || listContainsSub sub rest

/-- Python `sub in s` substring containment on strings. -/
def containsSub (s sub : String) : Bool :=
  listContainsSub sub.toList s.toList

/-- The ASCII whitespace characters stripped by Python `str.strip()` and
matched by `\s` in the regular expressions below. -/
def isPySpace (c : Char) : Bool :=
  c = ' ' || c = '\t' || c = '\n' || c = '\r' || c = '\x0B' || c = '\x0C'

/-- Python `str.strip()`: drop leading and trailing whitespace. -/
def stripChars (cs : List Char) : List Char :=
  ((cs.dropWhile isPySpace).reverse.dropWhile isPySpace).reverse

/-- Python `s.split(sep)` for a one-character separator (keeps empty
pieces). -/
def splitOnChar (sep : Char) : List Char → List (List Char)
  | [] => [[]]
  | c :: rest =>
    let r := splitOnChar sep rest
    if c = sep then [] :: r
    else
      match r with
      | [] => [[c]]
      | piece :: more => (c :: piece) :: more

/-- Python `s[:n]` on strings. -/
def takeStr (n : Nat) (s : String) : String :=
  String.mk (s.toList.take n)

/-- Association-list lookup, modelling lookup in a Python dict whose keys
are strings (`d[k]` / `d.get(k)`). -/
def lookupStr {α : Type} : List (String × α) → String → Option α
  | [], _ => none
  | (k, v) :: rest, key => if key = k then some v else lookupStr rest key

/-! ## Rounding

`round2`/`round1` model Python's `round(x, 2)` / `round(x, 1)` on the exact
rational values the engine computes. -/

/-- Round to 2 decimal places. -/
def round2 (q : ℚ) : ℚ := (round (q * 100) : ℤ) / 100

/-- Round to 1 decimal place. -/
def round1 (q : ℚ) : ℚ := (round (q * 10) : ℤ) / 10

/-! ## Scoring tables (`code/scoring_algorithm.py`, lines 13-52)

The tables are kept in the source's insertion order. -/

/-- Table `CATEGORY_WEIGHTS` (scoring_algorithm.py lines 13-19). -/
def CATEGORY_WEIGHTS : List (String × ℚ) :=
  [("service_level", 25),
   ("pricing_terms", 25),
   ("termination_exit", 20),
   ("data_portability", 15),
   ("support_obligations", 15)]

/-- Table `LOCK_IN_MULTIPLIERS` (scoring_algorithm.py lines 22-45). -/
def LOCK_IN_MULTIPLIERS : List (String × ℚ) :=
  [("no_compensation", 1),
   ("price_increase_risk", 1),
   ("data_restriction", 1),
   ("unilateral_pricing", 1),
   ("no_sla", 1),
   ("discontinuation_risk", 7/10),
   ("automatic_renewal", 7/10),
   ("limited_remedies", 7/10),
   ("no_commitment", 7/10),
   ("no_guarantee", 7/10),
   ("cancellation_penalty", 1/2),
   ("no_support_guarantee", 1/2),
   ("exit_fees", 1/2),
   ("no_notice_changes", 1/2),
   ("standard", 3/10)]

/-- Table `RISK_THRESHOLDS` (scoring_algorithm.py lines 48-52): each risk level
with its closed `(lo, hi)` score interval. -/
def RISK_THRESHOLDS : List (String × (ℚ × ℚ)) :=
  [("low", (0, 33)),
   ("medium", (34, 66)),
   ("high", (67, 100))]

/-! ## Clause records and category details -/

/-- A clause record, as built by `ContractAnalyzer.find_clauses`
(risk_assessor.py lines 196-205).  The scorer reads `clause_category`,
`risk_level` and `lock_in_mechanism`; `risk_level` is kept as a string
because the scorer's branch test is a string comparison with `'High'`
(anything else takes the medium-risk branch, matching
`clause.get('risk_level', 'Medium')` followed by `== 'High'`). -/
structure Clause where
  clause_id : String
  vendor_name : String
  contract_file : String
  clause_category : String
  clause_text : String
  risk_level : String
  lock_in_mechanism : String
  keyword_matches : Nat
  deriving DecidableEq, Repr

/-- A per-category detail record (scoring_algorithm.py lines 82-89 and
114-121).  `high_risk_percentage` and `penalty_reason` are `Option`s
because each key is present in only one of the two branches of
`calculate_category_score`. -/
structure CategoryDetail where
  score : ℚ
  max_points : ℚ
  clause_count : Nat
  high_risk_count : Nat
  high_risk_percentage : Option ℚ
  missing_coverage : Bool
  penalty_reason : Option String
  deriving DecidableEq, Repr

/-- The per-clause penalty accumulated by the loop of
`calculate_category_score` (scoring_algorithm.py lines 96-107): a
`'High'`-risk clause contributes its mechanism's multiplier (default 0.5
when the mechanism is not in the table); any other risk level contributes
half of the multiplier (default 0.3 when the mechanism is unmapped). -/
def clause_penalty (c : Clause) : ℚ :=
  if c.risk_level = "High" then
    (lookupStr LOCK_IN_MULTIPLIERS c.lock_in_mechanism).getD (1/2)
  else
    ((lookupStr LOCK_IN_MULTIPLIERS c.lock_in_mechanism).getD (3/10)) * (1/2)

/-- The body of `ContractScorer.calculate_category_score` for one category
(scoring_algorithm.py lines 76-121): returns the score stored in
`category_scores[category]` together with the `category_details[category]`
record.  The loop's running `total_penalty` and `high_risk_count` are
expressed as a mapped sum and a filtered length. -/
def calculate_category_score_for (clauses : List Clause) (category : String)
    (max_points : ℚ) : ℚ × CategoryDetail :=
  let category_clauses := clauses.filter (fun c => c.clause_category = category)
  if category_clauses = [] then
    (max_points * (1/2),
     { score := max_points * (1/2),
       max_points := max_points,
       clause_count := 0,
       high_risk_count := 0,
       high_risk_percentage := none,
       missing_coverage := true,
       penalty_reason := some "No clauses found in this category" })
  else
    let total_penalty := (category_clauses.map clause_penalty).sum
    let high_risk_count :=
      (category_clauses.filter (fun c => c.risk_level = "High")).length
    let avg_penalty := total_penalty / category_clauses.length
    let category_score := max_points * avg_penalty
    (round2 category_score,
     { score := round2 category_score,
       max_points := max_points,
       clause_count := category_clauses.length,
       high_risk_count := high_risk_count,
       high_risk_percentage :=
         some (round1 ((high_risk_count / category_clauses.length : ℚ) * 100)),
       missing_coverage := false,
       penalty_reason := none })

/-- Function `ContractScorer.calculate_category_score` (scoring_algorithm.py lines
63-123): the `(category_scores, category_details)` pair, one entry per
category of `CATEGORY_WEIGHTS`, in table order. -/
def calculate_category_score (clauses : List Clause) :
    List (String × ℚ) × List (String × CategoryDetail) :=
  (CATEGORY_WEIGHTS.map
     (fun cw => (cw.1, (calculate_category_score_for clauses cw.1 cw.2).1)),
   CATEGORY_WEIGHTS.map
     (fun cw => (cw.1, (calculate_category_score_for clauses cw.1 cw.2).2)))

/-- The risk-level branch of `ContractScorer.calculate_total_score`
(scoring_algorithm.py lines 139-144), reading the bounds from
`RISK_THRESHOLDS`. -/
def risk_level_of (total_score : ℚ) : String :=
  let low := (lookupStr RISK_THRESHOLDS "low").getD (0, 33)
  let medium := (lookupStr RISK_THRESHOLDS "medium").getD (34, 66)
  if low.1 ≤ total_score ∧ total_score ≤ low.2 then "LOW"
  else if medium.1 ≤ total_score ∧ total_score ≤ medium.2 then "MEDIUM"
  else "HIGH"

/-- Function `ContractScorer.calculate_total_score` (scoring_algorithm.py lines
125-146): sum the category scores, round to 2 decimals, classify. -/
def calculate_total_score (category_scores : List (String × ℚ)) : ℚ × String :=
  let total_score := round2 ((category_scores.map Prod.snd).sum)
  (total_score, risk_level_of total_score)

/-- The part of `ContractScorer.score_contract` (scoring_algorithm.py lines
148-175) consumed by the claims under verification: total score, risk
level, category scores and details.  The report's remaining keys
(`critical_issues`, `recommendations`, `score_interpretation`) are not
modelled; no claim mentions them. -/
structure ScoringReport where
  total_score : ℚ
  risk_level : String
  category_scores : List (String × ℚ)
  category_details : List (String × CategoryDetail)
  deriving DecidableEq, Repr

/-- Function `ContractScorer.score_contract` (scoring_algorithm.py lines 148-175),
restricted to the modelled fields. -/
def score_contract (clauses : List Clause) : ScoringReport :=
  let category_scores := (calculate_category_score clauses).1
  let category_details := (calculate_category_score clauses).2
  let ts := calculate_total_score category_scores
  { total_score := ts.1,
    risk_level := ts.2,
    category_scores := category_scores,
    category_details := category_details }

/-! ## Clause-detection configuration (`code/risk_assessor.py`, lines 25-137) -/

/-- One entry of `ContractAnalyzer.CLAUSE_CATEGORIES`: keyword,
negative-keyword and required-phrase lists. -/
structure CategoryConfig where
  keywords : List String
  negative_keywords : List String
  required_phrases : List String
  deriving DecidableEq, Repr

/-- The `data_portability` entry of `CLAUSE_CATEGORIES` (risk_assessor.py
lines 26-41). -/
def data_portability_config : CategoryConfig :=
  { keywords :=
      ["data export", "data portability", "data migration", "export data",
       "data transfer", "download data", "retrieve data", "data extraction",
       "data backup", "api access", "bulk export", "data ownership",
       "portable format", "standard format", "data retrieval"],
    negative_keywords :=
      ["no obligation to provide", "may not export", "cannot export",
       "prohibit export", "restrict export", "no portability",
       "proprietary format only", "no api access", "limited export"],
    required_phrases :=
      ["export", "portability", "migration", "api", "retrieval"] }

/-- The `pricing_terms` entry of `CLAUSE_CATEGORIES` (risk_assessor.py
lines 42-57). -/
def pricing_terms_config : CategoryConfig :=
  { keywords :=
      ["pricing", "fees", "payment", "cost", "subscription", "charges",
       "price increase", "rate change", "fee change", "pricing change",
       "billing", "invoice", "payment terms", "price adjustment",
       "renewal fee", "price lock", "pricing guarantee", "price modification"],
    negative_keywords :=
      ["increase prices", "raise fees", "modify pricing", "change fees",
       "at our discretion", "sole discretion", "without notice",
       "unilateral", "at any time", "right to change", "may increase"],
    required_phrases :=
      ["pric", "fee", "cost", "payment", "subscription"] }

/-- The `support_obligations` entry of `CLAUSE_CATEGORIES` (risk_assessor.py
lines 58-73). -/
def support_obligations_config : CategoryConfig :=
  { keywords :=
      ["support", "technical support", "customer support", "assistance",
       "help desk", "support hours", "support availability", "support level",
       "maintenance", "updates", "patches", "bug fixes", "response time",
       "support tier", "support plan", "customer service", "service availability"],
    negative_keywords :=
      ["no support", "no obligation to support", "may discontinue support",
       "at our discretion", "no guarantee", "best effort", "as is",
       "no commitment", "may suspend", "right to discontinue"],
    required_phrases :=
      ["support", "maintenance", "assistance", "service"] }

/-- The `termination_exit` entry of `CLAUSE_CATEGORIES` (risk_assessor.py
lines 74-89). -/
def termination_exit_config : CategoryConfig :=
  { keywords :=
      ["termination", "terminate", "cancel", "cancellation", "exit",
       "end of term", "contract end", "notice period", "termination fee",
       "early termination", "wind down", "transition", "off-boarding",
       "data deletion", "account closure", "suspension", "renewal"],
    negative_keywords :=
      ["termination fee", "penalty", "early termination fee", "cannot terminate",
       "must continue", "auto-renew", "automatic renewal", "no refund",
       "immediately delete", "forfeit", "early cancellation fee"],
    required_phrases :=
      ["terminat", "cancel", "exit", "renewal", "end"] }

/-- The `service_level` entry of `CLAUSE_CATEGORIES` (risk_assessor.py
lines 90-105). -/
def service_level_config : CategoryConfig :=
  { keywords :=
      ["sla", "service level", "uptime", "availability", "performance",
       "guarantee", "commitment", "downtime", "credits", "compensation",
       "reliability", "service credit", "remedies", "service performance",
       "service guarantee", "warranty", "service quality"],
    negative_keywords :=
      ["no sla", "no guarantee", "best effort", "as is", "no warranty",
       "sole remedy", "exclusive remedy", "no liability", "no compensation",
       "service credits only", "as available", "without warranty"],
    required_phrases :=
      ["sla", "uptime", "availability", "guarantee", "service level"] }

/-- Table `ContractAnalyzer.CLAUSE_CATEGORIES` (risk_assessor.py lines 25-106),
in insertion order. -/
def CLAUSE_CATEGORIES : List (String × CategoryConfig) :=
  [("data_portability", data_portability_config),
   ("pricing_terms", pricing_terms_config),
   ("support_obligations", support_obligations_config),
   ("termination_exit", termination_exit_config),
   ("service_level", service_level_config)]

/-- Table `ContractAnalyzer.LOCK_IN_PATTERNS` (risk_assessor.py lines 109-137):
per category, the mechanism → detection-substrings map in insertion
order. -/
def LOCK_IN_PATTERNS : List (String × List (String × List String)) :=
  [("data_portability",
    [("data_restriction", ["proprietary format", "no export", "cannot export", "restrict"]),
     ("no_api_access", ["no api", "limited api", "no programmatic access"]),
     ("export_restriction", ["export restriction", "limited export", "no bulk export"])]),
   ("pricing_terms",
    [("price_increase_risk", ["increase", "raise", "adjust", "modify"]),
     ("unilateral_pricing", ["sole discretion", "unilateral", "at our discretion", "right to change"]),
     ("no_notice_changes", ["without notice", "immediate effect", "no advance notice"]),
     ("automatic_renewal", ["auto-renew", "automatic renewal", "automatically renew"])]),
   ("support_obligations",
    [("no_support_guarantee", ["no support", "no obligation", "no guarantee"]),
     ("discontinuation_risk", ["may discontinue", "right to discontinue", "suspend"]),
     ("no_commitment", ["best effort", "no commitment", "as is"])]),
   ("termination_exit",
    [("exit_fees", ["termination fee", "early termination", "cancellation fee"]),
     ("cancellation_penalty", ["penalty", "forfeit", "early cancellation"]),
     ("automatic_renewal", ["auto-renew", "automatic renewal", "automatically renew"])]),
   ("service_level",
    [("no_sla", ["no sla", "no service level"]),
     ("no_compensation", ["no compensation", "no liability", "sole remedy"]),
     ("no_guarantee", ["no guarantee", "best effort", "as is", "without warranty"]),
     ("limited_remedies", ["sole remedy", "exclusive remedy", "only remedy", "service credits only"])])]

/-! ## Section splitting (`risk_assessor.py`, lines 209-224)

`_split_into_sections` first splits on the regular expression
`\n\n+|\n[0-9]+\.|\n[A-Z][A-Z\s]+\n` with Python `re.split` semantics:
scan left to right, at each position try the three alternatives in order,
repetitions are greedy with backtracking, and the text between consecutive
matches forms the pieces. -/

/-- Count the leading characters of the list satisfying `p`. -/
def countLeading (p : Char → Bool) : List Char → Nat
  | [] => 0
  | c :: rest => if p c then countLeading p rest + 1 else 0

/-- ASCII decimal digit (regex `[0-9]`). -/
def isDigitChar (c : Char) : Bool := '0' ≤ c && c ≤ '9'

/-- ASCII upper-case letter (regex `[A-Z]`). -/
def isUpperChar (c : Char) : Bool := 'A' ≤ c && c ≤ 'Z'

/-- The character class `[A-Z\s]` of the heading alternative. -/
def isHeadingChar (c : Char) : Bool := isUpperChar c || isPySpace c

/-- Scan indices `n, n-1, …, 1` of `rest` for a newline; this realises the
backtracking of the greedy `[A-Z\s]+` before the closing `\n` (the engine
keeps the longest repetition that leaves a `\n` to consume). -/
def findNlDown (rest : List Char) : Nat → Option Nat
  | 0 => none
  | Nat.succ j =>
    if rest.get? (j + 1) = some '\n' then some (j + 1) else findNlDown rest j

/-- Match the pattern `\n\n+|\n[0-9]+\.|\n[A-Z][A-Z\s]+\n` at the head of
the list; returns the number of characters the (leftmost-alternative,
greedy) match consumes. -/
def matchSep (cs : List Char) : Option Nat :=
  match cs with
  | '\n' :: '\n' :: rest =>
    -- `\n\n+`: greedy, consumes every further newline.
    some (2 + countLeading (fun c => c = '\n') rest)
  | '\n' :: c1 :: rest =>
    if isDigitChar c1 then
      -- `\n[0-9]+\.`: the digit run is maximal; a shorter run would be
      -- followed by a digit, which is not `.`, so no backtracking arises.
      let d := countLeading isDigitChar rest
      if rest.get? d = some '.' then some (1 + 1 + d + 1) else none
    else if isUpperChar c1 then
      -- `\n[A-Z][A-Z\s]+\n`: `[A-Z\s]+` is greedy; since `\n` itself is in
      -- the class, backtracking stops at the last newline strictly inside
      -- the maximal class run.
      let m := countLeading isHeadingChar rest
      match findNlDown rest (m - 1) with
      | some j => some (j + 3)
      | none => none
    else none
  | _ => none

/-- Fuel-driven `re.split` scan: walk the text, close the current piece at
every separator match and resume after it.  The fuel is the remaining text
length, so the zero-fuel fallback is never reached from `reSplit`. -/
def reSplitAux : Nat → List Char → List Char → List (List Char)
  | _, [], acc => [acc.reverse]
  | 0, cs, acc => [acc.reverse ++ cs]
  | Nat.succ fuel, c :: rest, acc =>
    match matchSep (c :: rest) with
    | some n => acc.reverse :: reSplitAux fuel (List.drop n (c :: rest)) []
    | none => reSplitAux fuel rest (c :: acc)

/-- Python `re.split(r'\n\n+|\n[0-9]+\.|\n[A-Z][A-Z\s]+\n', text)`. -/
def reSplit (cs : List Char) : List (List Char) :=
  reSplitAux cs.length cs []

/-- Function `ContractAnalyzer._split_into_sections` (risk_assessor.py lines
209-224): primary regex split, each piece stripped and kept only when its
stripped length exceeds 100; if fewer than 5 survive, fall back to
splitting on single newlines, keeping (unstripped) pieces longer than
100. -/
def split_into_sections (text : String) : List String :=
  let pieces := reSplit text.toList
  let sections :=
    (pieces.filter (fun s => 100 < (stripChars s).length)).map
      (fun s => String.mk (stripChars s))
  if sections.length < 5 then
    ((splitOnChar '\n' text.toList).filter (fun p => 100 < p.length)).map String.mk
  else sections

/-! ## Mechanism classification and clause matching
(`risk_assessor.py`, lines 163-236) -/

/-- The inner loop of `_identify_lock_in_mechanism`: first mechanism (in
table order) one of whose pattern substrings occurs in the text, else
`standard`. -/
def first_mechanism : List (String × List String) → String → String
  | [], _ => "standard"
  | (mechanism, patterns) :: rest, text =>
    if patterns.any (fun p => containsSub text p) then mechanism
    else first_mechanism rest text

/-- Function `ContractAnalyzer._identify_lock_in_mechanism` (risk_assessor.py lines
226-236); `text` is already lower-cased by the caller. -/
def identify_lock_in_mechanism (text : String) (category : String) : String :=
  match lookupStr LOCK_IN_PATTERNS category with
  | none => "standard"
  | some mechanisms => first_mechanism mechanisms text

/-- The body of the per-(category, section) iteration of
`ContractAnalyzer.find_clauses` (risk_assessor.py lines 172-205), threading
the `(clause_id, clauses)` state: skip sections shorter than 100
characters, require at least one required phrase in the lower-cased
section, require at least 2 keyword matches, then emit a clause whose risk
level is `High` exactly when a negative keyword occurs. -/
def process_section (category : String) (config : CategoryConfig)
    (vendor_name file_name : String) (st : Nat × List Clause)
    (sect : String) : Nat × List Clause :=
  if sect.length < 100 then st
  else
    let section_lower := lowerStr sect
    let has_required :=
      config.required_phrases.any (fun p => containsSub section_lower p)
    if has_required = false then st
    else
      let keyword_matches :=
        (config.keywords.filter (fun kw => containsSub section_lower kw)).length
      if 2 ≤ keyword_matches then
        let clause_id := st.1 + 1
        let has_negative :=
          config.negative_keywords.any (fun nkw => containsSub section_lower nkw)
        let risk_level := if has_negative then "High" else "Medium"
        let lock_in_type := identify_lock_in_mechanism section_lower category
        (clause_id,
         st.2 ++ [{ clause_id := vendor_name ++ "_" ++ toString clause_id,
                    vendor_name := vendor_name,
                    contract_file := file_name,
                    clause_category := category,
                    clause_text := takeStr 500 sect,
                    risk_level := risk_level,
                    lock_in_mechanism := lock_in_type,
                    keyword_matches := keyword_matches }])
      else st

/-- Function `ContractAnalyzer.find_clauses` (risk_assessor.py lines 163-207):
iterate the categories in table order and the sections in document order,
emitting qualifying clauses with sequential ids. -/
def find_clauses (text vendor_name file_name : String) : List Clause :=
  let sections := split_into_sections text
  (CLAUSE_CATEGORIES.foldl
     (fun st catcfg =>
       sections.foldl (process_section catcfg.1 catcfg.2 vendor_name file_name) st)
     (0, [])).2

/-! ## The assessment result surface
(`risk_assessor.py`, lines 238-293)

`analyze_contract_file` extracts text from the HTML file (I/O, outside the
engine) and then proceeds purely on the text; the pure part is modelled
from the extracted text onward. -/

/-- The text-processing part of `ContractAnalyzer.analyze_contract_file`
(risk_assessor.py lines 245-254): empty or sub-1000-character text yields
no clauses. -/
def analyze_contract_text (text vendor_name file_name : String) : List Clause :=
  if text = "" ∨ text.length < 1000 then []
  else find_clauses text vendor_name file_name

/-- The result dictionary of `RiskAssessmentEngine.assess_contract_file`
(risk_assessor.py lines 277-293).  Keys present only in one of the two
shapes (the error payload of lines 278-282 versus the assessment payload of
lines 285-292) are `Option` fields. -/
structure AssessmentResult where
  error : Option String
  file_path : Option String
  vendor_name : Option String
  total_score : Option ℚ
  risk_level : Option String
  category_scores : Option (List (String × ℚ))
  category_details : Option (List (String × CategoryDetail))
  contract_file : Option String
  total_clauses : Option Nat
  clauses : Option (List Clause)
  deriving DecidableEq, Repr

/-- Function `RiskAssessmentEngine.assess_contract_file` (risk_assessor.py lines
264-293) from the extracted text onward: an error payload when no clauses
were extracted, otherwise the scored assessment with metadata. -/
def assess_contract_text (text vendor_name file_name : String) :
    AssessmentResult :=
  match analyze_contract_text text vendor_name file_name with
  | [] =>
    { error := some "No clauses could be extracted from contract",
      file_path := some file_name,
      vendor_name := some vendor_name,
      total_score := none,
      risk_level := none,
      category_scores := none,
      category_details := none,
      contract_file := none,
      total_clauses := none,
      clauses := none }
  | c :: rest =>
    let clauses := c :: rest
    let assessment := score_contract clauses
    { error := none,
      file_path := none,
      vendor_name := some c.vendor_name,
      total_score := some assessment.total_score,
      risk_level := some assessment.risk_level,
      category_scores := some assessment.category_scores,
      category_details := some assessment.category_details,
      contract_file := some file_name,
      total_clauses := some clauses.length,
      clauses := some clauses }

/-! ## The questionnaire scoring path
(`code/interactive_assessment.py`, lines 222-329) -/

/-- The `max_points` table of
`InteractiveAssessment.calculate_risk_from_responses`
(interactive_assessment.py lines 234-240), in insertion order. -/
def interactive_max_points : List (String × ℚ) :=
  [("data_portability", 15),
   ("pricing_terms", 25),
   ("support_obligations", 15),
   ("termination_exit", 20),
   ("service_level", 25)]

/-- The tier branch of `calculate_risk_from_responses`
(interactive_assessment.py lines 314-319). -/
def interactive_risk_level (total_score : ℚ) : String :=
  if total_score ≤ 33 then "LOW"
  else if total_score ≤ 66 then "MEDIUM"
  else "HIGH"

/-! ## Concrete inputs used by counterexamples and witnesses -/

/-- A contract text whose primary split produces a piece of exactly 100
characters followed by a long piece. -/
def c2_text : String :=
  String.mk (List.replicate 100 'a' ++ '\n' :: '\n' :: List.replicate 150 'b')

/-- A section holding two `data_portability` keywords (`data backup`,
`data ownership`) but none of the category's required phrases. -/
def w9sec : String :=
  String.mk ("data backup data ownership ".toList ++ List.replicate 80 'z')

/-- A single high-risk `service_level` clause with the `no_sla`
mechanism. -/
def c5_clause : Clause :=
  { clause_id := "v_1", vendor_name := "v", contract_file := "f",
    clause_category := "service_level", clause_text := "t",
    risk_level := "High", lock_in_mechanism := "no_sla", keyword_matches := 3 }

/-- A single medium-risk `pricing_terms` clause. -/
def c6_clause : Clause :=
  { clause_id := "v_1", vendor_name := "v", contract_file := "f",
    clause_category := "pricing_terms", clause_text := "t",
    risk_level := "Medium", lock_in_mechanism := "standard",
    keyword_matches := 2 }

/-! ## Helper lemmas -/

/-- Unfold `risk_level_of` to its threshold tests. -/
theorem risk_level_of_eq (s : ℚ) :
    risk_level_of s =
      if 0 ≤ s ∧ s ≤ 33 then "LOW"
      else if 34 ≤ s ∧ s ≤ 66 then "MEDIUM"
      else "HIGH" := rfl

/-- Any value found by `lookupStr` satisfies any property all table values
satisfy. -/
theorem lookupStr_prop {α : Type} (P : α → Prop) :
    ∀ (l : List (String × α)) (k : String) (v : α),
      (∀ p ∈ l, P p.2) → lookupStr l k = some v → P v
  | [], _, _, _, h => by simp [lookupStr] at h
  | (k', v') :: rest, k, v, hall, h => by
    rw [lookupStr] at h
    split at h
    · cases h; exact hall (k', v') (List.mem_cons_self _ _)
    · exact lookupStr_prop P rest k v
        (fun p hp => hall p (List.mem_cons_of_mem _ hp)) h

/-- Every multiplier in the lock-in table lies in `[0, 1]`. -/
theorem lock_in_multiplier_bounds :
    ∀ p ∈ LOCK_IN_MULTIPLIERS, 0 ≤ p.2 ∧ p.2 ≤ 1 := by
  norm_num [LOCK_IN_MULTIPLIERS]

/-- Per-clause penalties are nonnegative. -/
theorem clause_penalty_nonneg (c : Clause) : 0 ≤ clause_penalty c := by
  unfold clause_penalty
  split <;>
    rcases h : lookupStr LOCK_IN_MULTIPLIERS c.lock_in_mechanism with _ | v <;>
      simp only [h, Option.getD_some, Option.getD_none]
  · norm_num
  · exact (lookupStr_prop (fun v => 0 ≤ v ∧ v ≤ 1) LOCK_IN_MULTIPLIERS
      c.lock_in_mechanism v lock_in_multiplier_bounds h).1
  · norm_num
  · have hb := lookupStr_prop (fun v => 0 ≤ v ∧ v ≤ 1) LOCK_IN_MULTIPLIERS
      c.lock_in_mechanism v lock_in_multiplier_bounds h
    linarith [hb.1]

/-- Per-clause penalties are at most 1. -/
theorem clause_penalty_le_one (c : Clause) : clause_penalty c ≤ 1 := by
  unfold clause_penalty
  split <;>
    rcases h : lookupStr LOCK_IN_MULTIPLIERS c.lock_in_mechanism with _ | v <;>
      simp only [h, Option.getD_some, Option.getD_none]
  · norm_num
  · exact (lookupStr_prop (fun v => 0 ≤ v ∧ v ≤ 1) LOCK_IN_MULTIPLIERS
      c.lock_in_mechanism v lock_in_multiplier_bounds h).2
  · norm_num
  · have hb := lookupStr_prop (fun v => 0 ≤ v ∧ v ≤ 1) LOCK_IN_MULTIPLIERS
      c.lock_in_mechanism v lock_in_multiplier_bounds h
    linarith [hb.2]

/-- A list of nonnegative rationals has nonnegative sum. -/
theorem list_sum_nonneg : ∀ (l : List ℚ), (∀ x ∈ l, 0 ≤ x) → 0 ≤ l.sum
  | [], _ => by simp
  | x :: rest, h => by
    have hx := h x (List.mem_cons_self _ _)
    have hr := list_sum_nonneg rest (fun y hy => h y (List.mem_cons_of_mem _ hy))
    simp only [List.sum_cons]
    linarith

/-- A list of rationals bounded by 1 has sum at most its length. -/
theorem list_sum_le_length : ∀ (l : List ℚ), (∀ x ∈ l, x ≤ 1) → l.sum ≤ l.length
  | [], _ => by simp
  | x :: rest, h => by
    have hx := h x (List.mem_cons_self _ _)
    have hr := list_sum_le_length rest (fun y hy => h y (List.mem_cons_of_mem _ hy))
    simp only [List.sum_cons, List.length_cons]
    push_cast
    linarith

/-- Rounding is monotone on rationals. -/
theorem round_mono_q {x y : ℚ} (h : x ≤ y) : round x ≤ round y := by
  rw [round_eq, round_eq]
  exact Int.floor_le_floor (by linarith)

/-- Rounding to 2 decimals preserves nonnegativity. -/
theorem round2_nonneg {x : ℚ} (h : 0 ≤ x) : 0 ≤ round2 x := by
  unfold round2
  have h1 : (0:ℤ) ≤ round (x * 100) := by
    have h2 : round ((0:ℚ)) ≤ round (x * 100) := round_mono_q (by nlinarith)
    simpa using h2
  have h3 : ((0:ℤ):ℚ) ≤ ((round (x * 100) : ℤ) : ℚ) := Int.cast_le.mpr h1
  push_cast at h3
  linarith

/-- Rounding to 2 decimals is monotone. -/
theorem round2_mono {x y : ℚ} (h : x ≤ y) : round2 x ≤ round2 y := by
  unfold round2
  have h1 : round (x * 100) ≤ round (y * 100) := round_mono_q (by nlinarith)
  have h2 : ((round (x * 100) : ℤ) : ℚ) ≤ ((round (y * 100) : ℤ) : ℚ) :=
    Int.cast_le.mpr h1
  linarith

/-- Rounding to 2 decimals fixes every integer multiple of `1/100`. -/
theorem round2_eq_self {q : ℚ} (z : ℤ) (hz : q * 100 = z) : round2 q = q := by
  unfold round2
  rw [hz, round_intCast]
  have h100 : (100:ℚ) ≠ 0 := by norm_num
  field_simp
  linarith [hz]

/-- The output of `round2` is an integer multiple of `1/100`. -/
theorem round2_cent (q : ℚ) : ∃ z : ℤ, (round2 q) * 100 = z := by
  refine ⟨round (q * 100), ?_⟩
  unfold round2
  field_simp

/-- Unfolding lemma: the zero-clause branch of
`calculate_category_score_for`. -/
theorem calculate_category_score_for_empty (clauses : List Clause)
    (category : String) (w : ℚ)
    (h : clauses.filter (fun c => c.clause_category = category) = []) :
    calculate_category_score_for clauses category w =
      (w * (1/2),
       { score := w * (1/2), max_points := w, clause_count := 0,
         high_risk_count := 0, high_risk_percentage := none,
         missing_coverage := true,
         penalty_reason := some "No clauses found in this category" }) := by
  simp only [calculate_category_score_for]
  rw [h]
  simp

/-- Unfolding lemma: the clause-bearing branch of
`calculate_category_score_for`. -/
theorem calculate_category_score_for_ne (clauses : List Clause)
    (category : String) (w : ℚ)
    (h : clauses.filter (fun c => c.clause_category = category) ≠ []) :
    calculate_category_score_for clauses category w =
      (round2 (w * (((clauses.filter (fun c => c.clause_category = category)).map clause_penalty).sum /
         ((clauses.filter (fun c => c.clause_category = category)).length : ℚ))),
       { score := round2 (w * (((clauses.filter (fun c => c.clause_category = category)).map clause_penalty).sum /
           ((clauses.filter (fun c => c.clause_category = category)).length : ℚ))),
         max_points := w,
         clause_count := (clauses.filter (fun c => c.clause_category = category)).length,
         high_risk_count := ((clauses.filter (fun c => c.clause_category = category)).filter
           (fun c => c.risk_level = "High")).length,
         high_risk_percentage := some (round1
           (((((clauses.filter (fun c => c.clause_category = category)).filter
                (fun c => c.risk_level = "High")).length : ℚ) /
             ((clauses.filter (fun c => c.clause_category = category)).length : ℚ)) * 100)),
         missing_coverage := false,
         penalty_reason := none }) := by
  simp only [calculate_category_score_for]
  rw [if_neg h]

/-- A category score is always within `[0, max_points]`, for any
`max_points` fixed by 2-decimal rounding. -/
theorem category_score_for_bounds (clauses : List Clause) (category : String)
    (w : ℚ) (hw : 0 ≤ w) (hr : round2 w = w) :
    0 ≤ (calculate_category_score_for clauses category w).1 ∧
    (calculate_category_score_for clauses category w).1 ≤ w := by
  by_cases h : clauses.filter (fun c => c.clause_category = category) = []
  · rw [calculate_category_score_for_empty clauses category w h]
    constructor
    · show 0 ≤ w * (1/2)
      linarith
    · show w * (1/2) ≤ w
      linarith
  · rw [calculate_category_score_for_ne clauses category w h]
    have hne := h
    have hlen : 0 < (clauses.filter (fun c => c.clause_category = category)).length :=
      List.length_pos.mpr hne
    have hq : (0:ℚ) < ((clauses.filter (fun c => c.clause_category = category)).length : ℚ) := by
      exact_mod_cast hlen
    have hsum0 : 0 ≤ ((clauses.filter (fun c => c.clause_category = category)).map clause_penalty).sum := by
      refine list_sum_nonneg _ ?_
      intro x hx
      obtain ⟨c, _, rfl⟩ := List.mem_map.mp hx
      exact clause_penalty_nonneg c
    have hsum1 : ((clauses.filter (fun c => c.clause_category = category)).map clause_penalty).sum ≤
        ((clauses.filter (fun c => c.clause_category = category)).length : ℚ) := by
      have h1 := list_sum_le_length
        ((clauses.filter (fun c => c.clause_category = category)).map clause_penalty)
        (by
          intro x hx
          obtain ⟨c, _, rfl⟩ := List.mem_map.mp hx
          exact clause_penalty_le_one c)
      simpa using h1
    have havg0 : 0 ≤ ((clauses.filter (fun c => c.clause_category = category)).map clause_penalty).sum /
        ((clauses.filter (fun c => c.clause_category = category)).length : ℚ) :=
      div_nonneg hsum0 (le_of_lt hq)
    have havg1 : ((clauses.filter (fun c => c.clause_category = category)).map clause_penalty).sum /
        ((clauses.filter (fun c => c.clause_category = category)).length : ℚ) ≤ 1 :=
      (div_le_one hq).mpr hsum1
    constructor
    · show 0 ≤ round2 (w * _)
      exact round2_nonneg (by nlinarith)
    · show round2 (w * _) ≤ w
      calc round2 (w * (((clauses.filter (fun c => c.clause_category = category)).map clause_penalty).sum /
            ((clauses.filter (fun c => c.clause_category = category)).length : ℚ)))
          ≤ round2 w := round2_mono (by nlinarith)
        _ = w := hr

/-- A category score is an integer multiple of `1/100` whenever
`max_points * 50` is an integer. -/
theorem category_score_for_cent (clauses : List Clause) (category : String)
    (w : ℚ) (z50 : ℤ) (hw : w * 50 = z50) :
    ∃ z : ℤ, (calculate_category_score_for clauses category w).1 * 100 = z := by
  by_cases h : clauses.filter (fun c => c.clause_category = category) = []
  · rw [calculate_category_score_for_empty clauses category w h]
    refine ⟨z50, ?_⟩
    show w * (1/2) * 100 = (z50 : ℚ)
    linarith [hw]
  · rw [calculate_category_score_for_ne clauses category w h]
    exact round2_cent _

/-! ## Claim C1: tier boundaries -/

/-- C1 counterexample: the claim asserts that a total score of 33.01 maps
to `MEDIUM`, but `calculate_total_score`'s tier branch maps it to `HIGH`
(33.01 satisfies neither `0 ≤ s ≤ 33` nor `34 ≤ s ≤ 66`, so the `else`
branch fires). -/
theorem C1_boundary_counterexample :
    risk_level_of (3301/100) = "HIGH" ∧ risk_level_of (3301/100) ≠ "MEDIUM" := by
  rw [risk_level_of_eq]
  norm_num
  decide

/-- C1 (amended): the risk tier is a pure function of the total score:
scores in `[0, 33]` map to `LOW`, scores in `[34, 66]` map to `MEDIUM`,
and every other score — including those strictly between 33 and 34 or
between 66 and 67, and all scores `≥ 67` — maps to `HIGH`; an assessment's
`risk_level` is exactly this function applied to its `total_score`. -/
theorem C1_tier_function (s : ℚ) (clauses : List Clause) :
    (0 ≤ s ∧ s ≤ 33 → risk_level_of s = "LOW") ∧
    (34 ≤ s ∧ s ≤ 66 → risk_level_of s = "MEDIUM") ∧
    ((33 < s ∧ s < 34) ∨ (66 < s ∧ s < 67) ∨ 67 ≤ s ∨ s < 0 →
      risk_level_of s = "HIGH") ∧
    (score_contract clauses).risk_level =
      risk_level_of (score_contract clauses).total_score := by
  refine ⟨?_, ?_, ?_, rfl⟩ <;> rw [risk_level_of_eq] <;> intro h
  · rw [if_pos h]
  · rw [if_neg (by rintro ⟨h0, h33⟩; linarith [h.1]), if_pos h]
  · have h1 : ¬ (0 ≤ s ∧ s ≤ 33) := by
      rintro ⟨a, b⟩
      rcases h with ⟨u, v⟩ | ⟨u, v⟩ | u | u <;> linarith
    have h2 : ¬ (34 ≤ s ∧ s ≤ 66) := by
      rintro ⟨a, b⟩
      rcases h with ⟨u, v⟩ | ⟨u, v⟩ | u | u <;> linarith
    rw [if_neg h1, if_neg h2]

/-- C1 witness: the tier function evaluated at the boundary scores 33, 66
and 66.01. -/
theorem C1_tier_function_witness :
    risk_level_of 33 = "LOW" ∧ risk_level_of 66 = "MEDIUM" ∧
    risk_level_of (6601/100) = "HIGH" :=
  ⟨(C1_tier_function 33 []).1 ⟨by norm_num, by norm_num⟩,
   (C1_tier_function 66 []).2.1 ⟨by norm_num, by norm_num⟩,
   (C1_tier_function (6601/100) []).2.2.1
     (Or.inr (Or.inl ⟨by norm_num, by norm_num⟩))⟩

/-! ## Claim C4: questionnaire path versus clause-based tiering -/

/-- C4 counterexample: at score 33.5 the questionnaire tier branch yields
`MEDIUM` while the clause-based scorer's tier branch yields `HIGH`; the
two tier functions are not equal on every score. -/
theorem C4_tier_divergence :
    interactive_risk_level (67/2) = "MEDIUM" ∧
    risk_level_of (67/2) = "HIGH" ∧
    interactive_risk_level (67/2) ≠ risk_level_of (67/2) := by
  have h1 : interactive_risk_level (67/2) = "MEDIUM" := by
    unfold interactive_risk_level
    norm_num
  have h2 : risk_level_of (67/2) = "HIGH" := by
    rw [risk_level_of_eq]
    norm_num
  refine ⟨h1, h2, ?_⟩
  rw [h1, h2]
  decide

/-- C4 (amended): the questionnaire path uses the same category-weight
table as the clause-based scorer (the two tables are equal as key → value
maps), and its tier function agrees with the scorer's at every nonnegative
score outside the open interval (33, 34) — in particular at every
nonnegative integer, hence at every total the questionnaire can produce,
since all its point increments are nonnegative integers.  The two tier
functions differ exactly on (33, 34), where the questionnaire assigns
`MEDIUM` while the scorer assigns `HIGH`; a score there is reachable by
neither path. -/
theorem C4_questionnaire_alignment :
    (∀ s : ℚ, 0 ≤ s → s ≤ 33 ∨ 34 ≤ s →
      interactive_risk_level s = risk_level_of s) ∧
    (∀ s : ℚ, 33 < s → s < 34 →
      interactive_risk_level s = "MEDIUM" ∧ risk_level_of s = "HIGH") ∧
    (∀ n : ℕ, interactive_risk_level (n : ℚ) = risk_level_of (n : ℚ)) ∧
    (∀ category : String,
      lookupStr interactive_max_points category =
        lookupStr CATEGORY_WEIGHTS category) := by
  have hagree : ∀ s : ℚ, 0 ≤ s → s ≤ 33 ∨ 34 ≤ s →
      interactive_risk_level s = risk_level_of s := by
    intro s h0 hd
    unfold interactive_risk_level
    rw [risk_level_of_eq]
    rcases hd with h33 | h34
    · rw [if_pos h33, if_pos ⟨h0, h33⟩]
    · rcases le_or_lt s 66 with h66 | h66
      · rw [if_neg (by linarith), if_pos h66,
          if_neg (by rintro ⟨a, b⟩; linarith), if_pos ⟨h34, h66⟩]
      · rw [if_neg (by linarith), if_neg (by linarith),
          if_neg (by rintro ⟨a, b⟩; linarith),
          if_neg (by rintro ⟨a, b⟩; linarith)]
  refine ⟨hagree, ?_, ?_, ?_⟩
  · intro s h1 h2
    constructor
    · unfold interactive_risk_level
      rw [if_neg (by linarith), if_pos (by linarith)]
    · rw [risk_level_of_eq,
        if_neg (by rintro ⟨a, b⟩; linarith),
        if_neg (by rintro ⟨a, b⟩; linarith)]
  · intro n
    rcases le_or_lt n 33 with h | h
    · exact hagree n (by positivity) (Or.inl (by exact_mod_cast h))
    · have h34n : 34 ≤ n := h
      exact hagree n (by positivity) (Or.inr (by exact_mod_cast h34n))
  · intro category
    simp only [interactive_max_points, CATEGORY_WEIGHTS, lookupStr]
    split_ifs <;> simp_all

/-- C4 witness: agreement at the scores 50 and 7, divergence at 33.5, and
the `pricing_terms` weight looked up in both tables. -/
theorem C4_questionnaire_alignment_witness :
    (interactive_risk_level 50 = risk_level_of 50) ∧
    (interactive_risk_level (67/2) = "MEDIUM" ∧ risk_level_of (67/2) = "HIGH") ∧
    (interactive_risk_level ((7:ℕ) : ℚ) = risk_level_of ((7:ℕ) : ℚ)) ∧
    lookupStr interactive_max_points "pricing_terms" =
      lookupStr CATEGORY_WEIGHTS "pricing_terms" :=
  ⟨C4_questionnaire_alignment.1 50 (by norm_num) (Or.inr (by norm_num)),
   C4_questionnaire_alignment.2.1 (67/2) (by norm_num) (by norm_num),
   C4_questionnaire_alignment.2.2.1 7,
   C4_questionnaire_alignment.2.2.2 "pricing_terms"⟩

/-! ## Claim C6: missing-coverage scoring -/

/-- C6: a category with zero clauses scores exactly half its maximum
points (both in the score table and in the detail record) and is flagged
`missing_coverage`; a category with at least one clause is never flagged
`missing_coverage`. -/
theorem C6_missing_coverage (clauses : List Clause) (category : String)
    (max_points : ℚ) :
    ((clauses.filter (fun c => c.clause_category = category)) = [] →
      (calculate_category_score_for clauses category max_points).1 =
        max_points * (1/2) ∧
      (calculate_category_score_for clauses category max_points).2.score =
        max_points * (1/2) ∧
      (calculate_category_score_for clauses category max_points).2.missing_coverage =
        true) ∧
    ((clauses.filter (fun c => c.clause_category = category)) ≠ [] →
      (calculate_category_score_for clauses category max_points).2.missing_coverage =
        false) := by
  constructor
  · intro h
    rw [calculate_category_score_for_empty clauses category max_points h]
    exact ⟨rfl, rfl, rfl⟩
  · intro h
    rw [calculate_category_score_for_ne clauses category max_points h]

/-- C6 witness: an empty clause list gives `data_portability` the score
`15 × 0.5` with the missing-coverage flag; a pricing clause clears the
flag for `pricing_terms`. -/
theorem C6_missing_coverage_witness :
    ((calculate_category_score_for [] "data_portability" 15).1 = 15 * (1/2) ∧
     (calculate_category_score_for [] "data_portability" 15).2.score = 15 * (1/2) ∧
     (calculate_category_score_for [] "data_portability" 15).2.missing_coverage = true) ∧
    (calculate_category_score_for [c6_clause] "pricing_terms" 25).2.missing_coverage =
      false :=
  ⟨(C6_missing_coverage [] "data_portability" 15).1 rfl,
   (C6_missing_coverage [c6_clause] "pricing_terms" 25).2 (by decide)⟩

/-! ## Claim C3: category-detail record contents -/

/-- C3 counterexample: the claim asserts every `CategoryDetail` carries a
high-risk percentage, including for a category with zero clauses; but for
an empty clause list the `data_portability` detail produced by
`calculate_category_score` has no `high_risk_percentage` key (that key is
only written in the clause-bearing branch). -/
theorem C3_zero_clause_detail :
    (lookupStr (calculate_category_score []).2 "data_portability").map
      (fun d => d.high_risk_percentage) = some none := by
  decide

/-- C3 (amended): every `CategoryDetail` carries score, max points, clause
count, high-risk count and the missing-coverage flag; the high-risk
percentage is present exactly when the category has at least one clause —
a zero-clause category's detail instead carries a `penalty_reason` string
and no high-risk percentage. -/
theorem C3_detail_fields (clauses : List Clause) (category : String) (w : ℚ) :
    ((calculate_category_score_for clauses category w).2.high_risk_percentage.isSome ↔
      0 < (calculate_category_score_for clauses category w).2.clause_count) ∧
    ((calculate_category_score_for clauses category w).2.penalty_reason.isSome ↔
      (calculate_category_score_for clauses category w).2.clause_count = 0) ∧
    (calculate_category_score_for clauses category w).2.max_points = w ∧
    ((calculate_category_score_for clauses category w).2.missing_coverage = true ↔
      (calculate_category_score_for clauses category w).2.clause_count = 0) := by
  by_cases h : clauses.filter (fun c => c.clause_category = category) = []
  · rw [calculate_category_score_for_empty clauses category w h]
    simp
  · rw [calculate_category_score_for_ne clauses category w h]
    have hlen : 0 < (clauses.filter (fun c => c.clause_category = category)).length :=
      List.length_pos.mpr h
    have hne0 : (clauses.filter (fun c => c.clause_category = category)).length ≠ 0 :=
      Nat.pos_iff_ne_zero.mp hlen
    simp [hlen, hne0]

/-! ## Claim C5: clause-bearing category scoring formula -/

/-- C5: for a category with at least one clause, the stored category score
is the maximum points times the average per-clause penalty (rounded to 2
decimals, as the engine stores it), where a `High`-risk clause contributes
its mechanism's multiplier (default 0.5 when the mechanism is unmapped)
and any other clause contributes half the multiplier (default 0.3 when
unmapped). -/
theorem C5_penalty_formula (clauses : List Clause) (category : String)
    (max_points : ℚ)
    (h : clauses.filter (fun c => c.clause_category = category) ≠ []) :
    (calculate_category_score_for clauses category max_points).1 =
      round2 (max_points *
        (((clauses.filter (fun c => c.clause_category = category)).map
            (fun c =>
              if c.risk_level = "High" then
                (lookupStr LOCK_IN_MULTIPLIERS c.lock_in_mechanism).getD (1/2)
              else
                ((lookupStr LOCK_IN_MULTIPLIERS c.lock_in_mechanism).getD (3/10)) * (1/2))).sum /
          ((clauses.filter (fun c => c.clause_category = category)).length : ℚ))) := by
  rw [calculate_category_score_for_ne clauses category max_points h]
  rfl

/-- C5 witness: one `High`-risk `no_sla` clause in `service_level` scores
the formula value, which evaluates to the full 25 points. -/
theorem C5_penalty_formula_witness :
    ([c5_clause].filter (fun c => c.clause_category = "service_level") ≠ []) ∧
    (calculate_category_score_for [c5_clause] "service_level" 25).1 =
      round2 (25 *
        ((([c5_clause].filter (fun c => c.clause_category = "service_level")).map
            (fun c =>
              if c.risk_level = "High" then
                (lookupStr LOCK_IN_MULTIPLIERS c.lock_in_mechanism).getD (1/2)
              else
                ((lookupStr LOCK_IN_MULTIPLIERS c.lock_in_mechanism).getD (3/10)) * (1/2))).sum /
          (([c5_clause].filter (fun c => c.clause_category = "service_level")).length : ℚ))) ∧
    (calculate_category_score_for [c5_clause] "service_level" 25).1 = 25 :=
  ⟨by decide,
   C5_penalty_formula [c5_clause] "service_level" 25 (by decide),
   by
     simp [calculate_category_score_for, clause_penalty, c5_clause, lookupStr,
       LOCK_IN_MULTIPLIERS, round2]
     norm_num⟩

/-! ## Claim C7: score bounds and additivity -/

/-- C7: for every clause list, each category score lies in `[0, weight]`,
the total score equals the sum of the five category scores exactly (every
stored category score is already a multiple of 1/100, so the final
2-decimal rounding is the identity), and the total lies in `[0, 100]`. -/
theorem C7_score_invariants (clauses : List Clause) :
    (∀ cw ∈ CATEGORY_WEIGHTS,
        0 ≤ (calculate_category_score_for clauses cw.1 cw.2).1 ∧
        (calculate_category_score_for clauses cw.1 cw.2).1 ≤ cw.2) ∧
    (calculate_total_score (calculate_category_score clauses).1).1 =
      ((calculate_category_score clauses).1.map Prod.snd).sum ∧
    0 ≤ (calculate_total_score (calculate_category_score clauses).1).1 ∧
    (calculate_total_score (calculate_category_score clauses).1).1 ≤ 100 := by
  have hb : ∀ cw ∈ CATEGORY_WEIGHTS,
      0 ≤ (calculate_category_score_for clauses cw.1 cw.2).1 ∧
      (calculate_category_score_for clauses cw.1 cw.2).1 ≤ cw.2 := by
    intro cw hcw
    have hmem : cw = ("service_level", (25:ℚ)) ∨ cw = ("pricing_terms", (25:ℚ)) ∨
        cw = ("termination_exit", (20:ℚ)) ∨ cw = ("data_portability", (15:ℚ)) ∨
        cw = ("support_obligations", (15:ℚ)) := by
      simpa [CATEGORY_WEIGHTS] using hcw
    rcases hmem with rfl | rfl | rfl | rfl | rfl <;>
      exact category_score_for_bounds clauses _ _ (by norm_num) (by norm_num [round2])
  have hmap : ((calculate_category_score clauses).1.map Prod.snd) =
      [(calculate_category_score_for clauses "service_level" 25).1,
       (calculate_category_score_for clauses "pricing_terms" 25).1,
       (calculate_category_score_for clauses "termination_exit" 20).1,
       (calculate_category_score_for clauses "data_portability" 15).1,
       (calculate_category_score_for clauses "support_obligations" 15).1] := by
    simp [calculate_category_score, CATEGORY_WEIGHTS]
  obtain ⟨z1, hz1⟩ := category_score_for_cent clauses "service_level" 25 1250 (by norm_num)
  obtain ⟨z2, hz2⟩ := category_score_for_cent clauses "pricing_terms" 25 1250 (by norm_num)
  obtain ⟨z3, hz3⟩ := category_score_for_cent clauses "termination_exit" 20 1000 (by norm_num)
  obtain ⟨z4, hz4⟩ := category_score_for_cent clauses "data_portability" 15 750 (by norm_num)
  obtain ⟨z5, hz5⟩ := category_score_for_cent clauses "support_obligations" 15 750 (by norm_num)
  have hsum : ((calculate_category_score clauses).1.map Prod.snd).sum =
      (calculate_category_score_for clauses "service_level" 25).1 +
      (calculate_category_score_for clauses "pricing_terms" 25).1 +
      (calculate_category_score_for clauses "termination_exit" 20).1 +
      (calculate_category_score_for clauses "data_portability" 15).1 +
      (calculate_category_score_for clauses "support_obligations" 15).1 := by
    rw [hmap]
    simp only [List.sum_cons, List.sum_nil, add_zero]
    ring
  have hcent : ((calculate_category_score clauses).1.map Prod.snd).sum * 100 =
      ((z1 + z2 + z3 + z4 + z5 : ℤ) : ℚ) := by
    rw [hsum]
    push_cast
    linarith
  have htotal : (calculate_total_score (calculate_category_score clauses).1).1 =
      ((calculate_category_score clauses).1.map Prod.snd).sum := by
    show round2 _ = _
    exact round2_eq_self (z1 + z2 + z3 + z4 + z5) hcent
  have hb1 := hb ("service_level", (25:ℚ)) (by norm_num [CATEGORY_WEIGHTS])
  have hb2 := hb ("pricing_terms", (25:ℚ)) (by norm_num [CATEGORY_WEIGHTS])
  have hb3 := hb ("termination_exit", (20:ℚ)) (by norm_num [CATEGORY_WEIGHTS])
  have hb4 := hb ("data_portability", (15:ℚ)) (by norm_num [CATEGORY_WEIGHTS])
  have hb5 := hb ("support_obligations", (15:ℚ)) (by norm_num [CATEGORY_WEIGHTS])
  dsimp only at hb1 hb2 hb3 hb4 hb5
  refine ⟨hb, htotal, ?_, ?_⟩
  · rw [htotal, hsum]
    linarith [hb1.1, hb2.1, hb3.1, hb4.1, hb5.1]
  · rw [htotal, hsum]
    linarith [hb1.2, hb2.2, hb3.2, hb4.2, hb5.2]

/-- C7 witness: the invariants instantiated for the `service_level`
category on the empty clause list. -/
theorem C7_score_invariants_witness :
    (("service_level", (25:ℚ)) ∈ CATEGORY_WEIGHTS) ∧
    (0 ≤ (calculate_category_score_for ([] : List Clause) "service_level" 25).1 ∧
     (calculate_category_score_for ([] : List Clause) "service_level" 25).1 ≤ 25) :=
  ⟨by norm_num [CATEGORY_WEIGHTS],
   (C7_score_invariants []).1 ("service_level", 25) (by norm_num [CATEGORY_WEIGHTS])⟩

/-! ## Claim C2: section lengths -/

set_option maxRecDepth 8000 in
/-- C2 counterexample: the claim asserts every trimmed piece of length
exactly 100 survives the splitter's filter, but the filter keeps only
pieces whose stripped length strictly exceeds 100: on a text whose primary
split yields a 100-character piece and a 150-character piece, the
100-character piece is dropped (by the primary filter and again by the
single-newline fallback), and the splitter returns only the long piece. -/
theorem C2_exact_100_dropped :
    reSplit c2_text.toList =
      [List.replicate 100 'a', List.replicate 150 'b'] ∧
    (stripChars (List.replicate 100 'a')).length = 100 ∧
    split_into_sections c2_text = [String.mk (List.replicate 150 'b')] := by
  refine ⟨by decide, by decide, by decide⟩

/-- C2 (amended): every section produced by the Section Splitter — in both
the primary split and the single-newline fallback — has length strictly
greater than 100 characters (hence at least 100); a trimmed piece survives
the filter only when its length exceeds 100, so pieces of exactly 100
characters are dropped. -/
theorem C2_section_length (text s : String)
    (h : s ∈ split_into_sections text) : 100 < s.length := by
  simp only [split_into_sections] at h
  split at h
  · obtain ⟨p, hp, rfl⟩ := List.mem_map.mp h
    have h2 : 100 < p.length := by simpa using (List.mem_filter.mp hp).2
    simpa [String.length] using h2
  · obtain ⟨p, hp, rfl⟩ := List.mem_map.mp h
    have h2 : 100 < (stripChars p).length := by
      simpa using (List.mem_filter.mp hp).2
    simpa [String.length] using h2

set_option maxRecDepth 8000 in
/-- C2 witness: the 150-character section of the counterexample text is a
produced section, and its length exceeds 100. -/
theorem C2_section_length_witness :
    (String.mk (List.replicate 150 'b') ∈ split_into_sections c2_text) ∧
    100 < (String.mk (List.replicate 150 'b')).length :=
  ⟨by decide, C2_section_length c2_text _ (by decide)⟩

/-! ## Claim C9: the required-phrase gate -/

/-- C9: when the lower-cased section contains none of a category's
required phrases, the matcher emits no clause for that (category, section)
pair and leaves the `(clause_id, clauses)` state unchanged — regardless of
how many keyword matches the section has. -/
theorem C9_required_phrase_gate (category : String) (config : CategoryConfig)
    (vendor_name file_name : String) (st : Nat × List Clause) (sect : String)
    (h : config.required_phrases.any
      (fun p => containsSub (lowerStr sect) p) = false) :
    process_section category config vendor_name file_name st sect = st := by
  unfold process_section
  split
  · rfl
  · dsimp only
    rw [h]
    simp

/-- C9 witness: a 107-character section containing two `data_portability`
keywords but none of the category's required phrases yields no clause. -/
theorem C9_required_phrase_gate_witness :
    (data_portability_config.required_phrases.any
      (fun p => containsSub (lowerStr w9sec) p) = false) ∧
    2 ≤ (data_portability_config.keywords.filter
      (fun kw => containsSub (lowerStr w9sec) kw)).length ∧
    process_section "data_portability" data_portability_config "V" "F"
      (0, []) w9sec = (0, []) :=
  ⟨by decide, by decide,
   C9_required_phrase_gate "data_portability" data_portability_config "V" "F"
     (0, []) w9sec (by decide)⟩

/-! ## Claim C10: first-match mechanism classification -/

/-- The first-match loop of the mechanism classifier agrees with
`List.find?` over the mechanism table. -/
theorem first_mechanism_eq_find (text : String) :
    ∀ l : List (String × List String),
      first_mechanism l text =
        ((l.find? (fun mp => mp.2.any (fun p => containsSub text p))).map
          Prod.fst).getD "standard"
  | [] => rfl
  | (mechanism, patterns) :: rest => by
    rw [first_mechanism]
    cases hp : patterns.any (fun p => containsSub text p) with
    | true => simp [List.find?, hp]
    | false =>
      simp only [List.find?, hp, Bool.false_eq_true, if_false]
      exact first_mechanism_eq_find text rest

/-- C10: the mechanism label is computed by first-match-wins over the
category's mechanism table in insertion order (`List.find?` returns the
first entry whose substring list matches), defaulting to `standard` when
no mechanism matches or the category is unknown; and every clause emitted
by the matcher for a section carries exactly this label computed on the
lower-cased section. -/
theorem C10_first_match_mechanism (text category : String)
    (config : CategoryConfig) (vendor_name file_name : String)
    (st : Nat × List Clause) (sect : String) :
    (identify_lock_in_mechanism text category =
      (match lookupStr LOCK_IN_PATTERNS category with
       | none => "standard"
       | some mechanisms =>
         ((mechanisms.find? (fun mp => mp.2.any (fun p => containsSub text p))).map
            Prod.fst).getD "standard")) ∧
    (((process_section category config vendor_name file_name st sect).2.drop
        st.2.length).all
      (fun c => c.lock_in_mechanism ==
        identify_lock_in_mechanism (lowerStr sect) category) = true) := by
  constructor
  · unfold identify_lock_in_mechanism
    cases lookupStr LOCK_IN_PATTERNS category with
    | none => rfl
    | some mechanisms => exact first_mechanism_eq_find text mechanisms
  · unfold process_section
    split
    · simp [List.drop_length]
    · dsimp only
      split
      · simp [List.drop_length]
      · split
        · simp [List.drop_left]
        · simp [List.drop_length]

/-! ## Claim C8: the error surface -/

/-- C8: the assessment result carries an `error` string exactly when the
extracted text is absent (empty) or shorter than 1000 characters, or when
zero qualifying clauses are extracted across all categories; in every
other case (and only then) the result carries a total score and a risk
level and no error field. -/
theorem C8_error_surface (text vendor_name file_name : String) :
    (assess_contract_text text vendor_name file_name).error.isSome =
      (decide (text = "") || decide (text.length < 1000) ||
        decide (find_clauses text vendor_name file_name = [])) ∧
    (assess_contract_text text vendor_name file_name).total_score.isSome =
      !(decide (text = "") || decide (text.length < 1000) ||
        decide (find_clauses text vendor_name file_name = [])) ∧
    (assess_contract_text text vendor_name file_name).risk_level.isSome =
      !(decide (text = "") || decide (text.length < 1000) ||
        decide (find_clauses text vendor_name file_name = [])) := by
  unfold assess_contract_text analyze_contract_text
  by_cases hshort : text = "" ∨ text.length < 1000
  · rw [if_pos hshort]
    rcases hshort with h | h <;> simp [h]
  · rw [if_neg hshort]
    push_neg at hshort
    cases hfc : find_clauses text vendor_name file_name with
    | nil => simp [hshort.1, hshort.2]
    | cons c rest => simp [hshort.1, hshort.2]
